import Mathlib

/-!
Verification development for the screenshot-overlay frontend
(`src/js/screenshot.js`, the revision with the color picker and the
persistent activation listener).  The JavaScript event handlers are
shallowly embedded as pure Lean functions over an explicit state record;
asynchronous effects (window hide, backend invocations, clipboard writes,
scheduled redraws) are recorded as an ordered trace of effect events, in
the order the sequential `await` chain of the source issues them.
-/

namespace ScreenTranslator

/-- A raw pixel color, channels 0..255 as in `getImageData`. -/
structure Color where
  r : Nat
  g : Nat
  b : Nat
deriving DecidableEq

/-- The `currentColor` record built in the `mousemove` handler:
`{ r, g, b, hex: rgbToHex(r,g,b), rgb: rgbToRgbString(r,g,b) }`. -/
structure ColorInfo where
  r : Nat
  g : Nat
  b : Nat
  hex : String
  rgb : String
deriving DecidableEq

/-- The `colorFormat` variable, either the string `'hex'` or `'rgb'`. -/
inductive ColorFormat where
  | hex
  | rgb
deriving DecidableEq

/-- The decoded raster snapshot held by the `screenCapture` `Image`:
its natural size and its pixel function (`pix x y` is the pixel at
natural coordinates `(x, y)`; callers only rely on in-bounds points). -/
structure FrameBuffer where
  width : Nat
  height : Nat
  pix : Int → Int → Color

/-- The mutable top-level state of `screenshot.js`:
`isDrawing`, `startX/startY`, `currentX/currentY`, `screenCapture`,
`currentColor`, `colorFormat`, `copyFeedback`. -/
structure ScState where
  isDrawing : Bool
  startX : Int
  startY : Int
  currentX : Int
  currentY : Int
  screenCapture : Option FrameBuffer
  currentColor : Option ColorInfo
  colorFormat : ColorFormat
  copyFeedback : Bool

/-- One hex digit as produced by JavaScript `Number.prototype.toString(16)`
(lowercase letters). -/
def jsToHex (c : Nat) : String :=
  String.mk (Nat.toDigits 16 c)

/-- The `toHex` lambda inside `rgbToHex`:
`c => ('0' + c.toString(16)).slice(-2)` — prepend a zero and keep the
last two characters. -/
def toHexPad2 (c : Nat) : String :=
  let s := "0" ++ jsToHex c
  s.drop (s.length - 2)

/-- JavaScript `String.prototype.toUpperCase` on ASCII text, as a plain
character map. -/
def jsToUpper (s : String) : String :=
  String.mk (s.data.map Char.toUpper)

/-- JavaScript `String.prototype.toLowerCase` on ASCII text, as a plain
character map. -/
def jsToLower (s : String) : String :=
  String.mk (s.data.map Char.toLower)

/-- `rgbToHex(r, g, b)`: two zero-padded hex digits per channel,
concatenated after `#`, the whole string upper-cased. -/
def rgbToHex (r g b : Nat) : String :=
  jsToUpper ("#" ++ toHexPad2 r ++ toHexPad2 g ++ toHexPad2 b)

/-- `rgbToRgbString(r, g, b)`: the literal CSS text. -/
def rgbToRgbString (r g b : Nat) : String :=
  "rgb(" ++ toString r ++ ", " ++ toString g ++ ", " ++ toString b ++ ")"

/-- The string the UI shows (and copies) for a sampled color:
`colorFormat === 'hex' ? currentColor.hex : currentColor.rgb`
(used identically in `drawMagnifier` and `copyColorToClipboard`). -/
def displayedColor (fmt : ColorFormat) (c : ColorInfo) : String :=
  match fmt with
  | .hex => c.hex
  | .rgb => c.rgb

/-- The `shift` branch of the keydown handler:
`colorFormat = (colorFormat === 'hex') ? 'rgb' : 'hex'`. -/
def toggleFormat : ColorFormat → ColorFormat
  | .hex => .rgb
  | .rgb => .hex

/-- Observable asynchronous effects issued by the handlers, in program
order: window hide / close, the two backend commands, the clipboard
write, a console-error log, a direct `draw()` call, and a
`requestAnimationFrame(draw)` request. -/
inductive Eff where
  | hideWindow
  | closeWindow
  | alertUser
  | invokeCommit (x y w h : Int)
  | invokeCancel
  | writeClipboard (s : String)
  | logError
  | drawNow
  | requestDraw
deriving DecidableEq

/-- `cancel_screenshot()`: hide the window, then invoke the backend
`cancel_screenshot` command; an invocation failure is caught and logged.
`cancelOk` is the outcome of the backend call.  No state variable is
touched. -/
def cancel_screenshot (st : ScState) (cancelOk : Bool) : ScState × List Eff :=
  (st, [Eff.hideWindow, Eff.invokeCancel] ++ if cancelOk then [] else [Eff.logError])

/-- `copyColorToClipboard()`: no-op without a `currentColor`; otherwise
write the displayed string, and on success set `copyFeedback = true` and
schedule a `setTimeout` reset 300 ms from `now` (returned as the list of
newly scheduled reset times); a write failure is caught and logged. -/
def copyColorToClipboard (st : ScState) (writeOk : Bool) (now : Nat) :
    ScState × List Eff × List Nat :=
  match st.currentColor with
  | none => (st, [], [])
  | some c =>
    if writeOk then
      ({st with copyFeedback := true},
       [Eff.writeClipboard (displayedColor st.colorFormat c)], [now + 300])
    else
      (st, [Eff.writeClipboard (displayedColor st.colorFormat c), Eff.logError], [])

/-- The `mousedown` handler: only the primary button (`e.button === 0`)
starts a drag; it records anchor = current = the pointer position and
requests a redraw. -/
def mousedown (st : ScState) (button : Nat) (ex ey : Int) : ScState × List Eff :=
  if button ≠ 0 then (st, [])
  else
    ({st with isDrawing := true, startX := ex, startY := ey,
              currentX := ex, currentY := ey}, [Eff.requestDraw])

/-- The `currentColor` object literal built in the `mousemove` handler
from the pixel read by `getImageData`. -/
def sampleInfo (c : Color) : ColorInfo :=
  ⟨c.r, c.g, c.b, rgbToHex c.r c.g c.b, rgbToRgbString c.r c.g c.b⟩

/-- The `mousemove` handler: update `currentX/currentY`; if a capture is
loaded, read the single pixel at the new position from the rendered
canvas (`ctx.getImageData(currentX, currentY, 1, 1)`, abstracted as the
`canvas` pixel map) and rebuild `currentColor` with its formatted
strings; finally request a redraw. -/
def mousemove (st : ScState) (canvas : Int → Int → Color) (ex ey : Int) :
    ScState × List Eff :=
  match st.screenCapture with
  | some _ =>
    ({st with currentX := ex, currentY := ey,
              currentColor := some (sampleInfo (canvas ex ey))}, [Eff.requestDraw])
  | none => ({st with currentX := ex, currentY := ey}, [Eff.requestDraw])

/-- The `mouseup` handler: ignore non-primary buttons and releases with
no drag in progress; otherwise end the drag, await the window hide,
normalize the selection, cancel on a sub-10-pixel selection, else invoke
`process_screenshot_area` and fall back to `cancel_screenshot` when that
call throws.  `commitOk`/`cancelOk` are the backend call outcomes. -/
def mouseup (st : ScState) (button : Nat) (commitOk cancelOk : Bool) :
    ScState × List Eff :=
  if button ≠ 0 ∨ st.isDrawing = false then (st, [])
  else if |st.currentX - st.startX| < 10 ∨ |st.currentY - st.startY| < 10 then
    ((cancel_screenshot {st with isDrawing := false} cancelOk).1,
     Eff.hideWindow :: (cancel_screenshot {st with isDrawing := false} cancelOk).2)
  else if commitOk then
    ({st with isDrawing := false},
     [Eff.hideWindow,
      Eff.invokeCommit (min st.startX st.currentX) (min st.startY st.currentY)
        (|st.currentX - st.startX|) (|st.currentY - st.startY|)])
  else
    ((cancel_screenshot {st with isDrawing := false} cancelOk).1,
     [Eff.hideWindow,
      Eff.invokeCommit (min st.startX st.currentX) (min st.startY st.currentY)
        (|st.currentX - st.startX|) (|st.currentY - st.startY|),
      Eff.logError] ++ (cancel_screenshot {st with isDrawing := false} cancelOk).2)

/-- The `contextmenu` handler: prevent the default menu and run the
cancel sequence. -/
def contextmenu (st : ScState) (cancelOk : Bool) : ScState × List Eff :=
  cancel_screenshot st cancelOk

/-- The `keydown` handler, switching on `e.key.toLowerCase()`:
`escape` cancels, `shift` toggles the color format and requests a
redraw, `c` copies the color then requests a redraw; any other key only
has its default behavior suppressed.  The third component is the list of
`setTimeout` reset times scheduled by the copy branch. -/
def keydown (st : ScState) (key : String) (cancelOk writeOk : Bool) (now : Nat) :
    ScState × List Eff × List Nat :=
  if jsToLower key = "escape" then
    ((cancel_screenshot st cancelOk).1, (cancel_screenshot st cancelOk).2, [])
  else if jsToLower key = "shift" then
    ({st with colorFormat := toggleFormat st.colorFormat}, [Eff.requestDraw], [])
  else if jsToLower key = "c" then
    ((copyColorToClipboard st writeOk now).1,
     (copyColorToClipboard st writeOk now).2.1 ++ [Eff.requestDraw],
     (copyColorToClipboard st writeOk now).2.2)
  else
    (st, [], [])

/-- `setupCanvas(screenshotDataUrl)`: an empty (falsy) or non-string URL
alerts and closes the window; otherwise a fresh `Image` replaces
`screenCapture` wholesale, and once decoding finishes (`decodeOk`,
decoded raster `img`) `onload` runs the first `draw()`; a decode error
alerts and closes.  No other state variable is touched. -/
def setupCanvas (st : ScState) (url : String) (decodeOk : Bool)
    (img : FrameBuffer) : ScState × List Eff :=
  if url = "" then (st, [Eff.alertUser, Eff.closeWindow])
  else if decodeOk then ({st with screenCapture := some img}, [Eff.drawNow])
  else ({st with screenCapture := some img}, [Eff.alertUser, Eff.closeWindow])

/-- The persistent `initialize-screenshot` listener body: a payload with
a truthy `image_data_url` (modelled as `some url`, `url ≠ ""`) goes to
`setupCanvas`; anything else alerts and closes the window. -/
def onInitializeEvent (st : ScState) (payload : Option String) (decodeOk : Bool)
    (img : FrameBuffer) : ScState × List Eff :=
  match payload with
  | some url =>
    if url = "" then (st, [Eff.alertUser, Eff.closeWindow])
    else setupCanvas st url decodeOk img
  | none => (st, [Eff.alertUser, Eff.closeWindow])

/-- Whether an effect is one of the two backend commands
(`process_screenshot_area` or `cancel_screenshot`). -/
def backendCall : Eff → Bool
  | .invokeCommit _ _ _ _ => true
  | .invokeCancel => true
  | _ => false

/-- Whether an effect is the backend commit command. -/
def isCommitEff : Eff → Bool
  | .invokeCommit _ _ _ _ => true
  | _ => false

/-- Whether an effect is the backend cancel command. -/
def isCancelEff : Eff → Bool
  | .invokeCancel => true
  | _ => false

/-- `hideBefore seen tr` holds when every backend command in the trace
`tr` is preceded by a window hide (`seen` records whether a hide has
already happened). -/
def hideBefore (seen : Bool) : List Eff → Bool
  | [] => true
  | e :: rest =>
    if backendCall e then seen && hideBefore seen rest
    else
      match e with
      | .hideWindow => hideBefore true rest
      | _ => hideBefore seen rest

/-- The step-4 guard of `draw()`: a frame renders the drag selection
highlight and border exactly when `isDrawing` is true. -/
def rendersSelection (st : ScState) : Bool :=
  st.isDrawing

/-- The semi-transparent mask of `draw()` step 3
(`fillRect` with `rgba(0, 0, 0, 0.5)` over an opaque destination):
source-over compositing leaves each channel at half its value.  The
8-bit rounding of 127.5 is browser-dependent; floor is used here, and
the theorems below rely only on values no rounding can map to 255. -/
def maskBlend (c : Color) : Color :=
  ⟨c.r / 2, c.g / 2, c.b / 2⟩

/-- The background of `draw()` step 2
(`drawImage(screenCapture, 0, 0, canvas.width, canvas.height)`), which
scales the capture's natural size to the canvas; a destination pixel
samples the source at the proportional coordinate (nearest sampling —
exact whenever the natural size equals the canvas size, the case used
by every theorem below). -/
def scaledBgPix (fb : FrameBuffer) (cw ch : Nat) (x y : Int) : Color :=
  fb.pix ((x * (fb.width : Int)) / (cw : Int)) ((y * (fb.height : Int)) / (ch : Int))

/-- The canvas pixel produced by `draw()` steps 1–4 when
`screenCapture = some fb`: background image, 50 % black mask, and — while
dragging — the selection punched through by
`drawImage(screenCapture, realX, realY, realW, realH, realX, realY,
realW, realH)` (equal source and destination rectangles, so punched
pixels come from the capture's natural coordinates unscaled).  Steps 5–6
(magnifier, size readout) and the stroked selection border repaint only
their own regions, so this model is read only at points outside the
magnifier box, away from the selection border band, and outside the size
readout (which never intersects the open selection interior). -/
def drawnPixel (cw ch : Nat) (st : ScState) (fb : FrameBuffer) (x y : Int) : Color :=
  if st.isDrawing then
    if 0 < |st.currentX - st.startX| ∧ 0 < |st.currentY - st.startY| ∧
       min st.startX st.currentX ≤ x ∧
       x < min st.startX st.currentX + |st.currentX - st.startX| ∧
       min st.startY st.currentY ≤ y ∧
       y < min st.startY st.currentY + |st.currentY - st.startY| then
      fb.pix x y
    else maskBlend (scaledBgPix fb cw ch x y)
  else maskBlend (scaledBgPix fb cw ch x y)

/-- The bounding region repainted by `drawMagnifier` on a canvas of
width `cw`: the 160-pixel box at `(cw - 180, 20)` widened by 2 pixels
for its 3-pixel-wide border stroke. -/
def inMagnifierBox (cw : Nat) (x y : Int) : Prop :=
  (cw : Int) - 182 ≤ x ∧ x ≤ (cw : Int) - 18 ∧ 18 ≤ y ∧ y ≤ 182

/-- Timer-event timeline of `copyColorToClipboard`'s feedback flag under
the JavaScript event loop: each successful copy at time `t` writes
`copyFeedback = true` and schedules an uncancelled `setTimeout` that
writes `false` at `t + 300`.  An event is a `(time, value)` write; ties
resolve in favor of the later list entry (concrete inputs below avoid
ties). -/
def copyEvents (copies : List Nat) : List (Nat × Bool) :=
  copies.map (fun t => (t, true)) ++ copies.map (fun t => (t + 300, false))

/-- The value of `copyFeedback` at time `T`, given the times of the
successful copies: the value written by the latest event at or before
`T` (initially `false`). -/
def feedbackAt (copies : List Nat) (T : Nat) : Bool :=
  let latest := (copyEvents copies).foldl
    (fun acc e =>
      if e.1 ≤ T then
        match acc with
        | none => some e
        | some a => if a.1 ≤ e.1 then some e else some a
      else acc) none
  match latest with
  | some a => a.2
  | none => false

/-! ## Concrete fixtures used by witnesses and counterexamples -/

/-- A full-screen capture that is pure red everywhere. -/
def fbRed : FrameBuffer :=
  ⟨1920, 1080, fun _ _ => ⟨255, 0, 0⟩⟩

/-- A second capture (pure blue), standing in for a later session's
image. -/
def fbBlue : FrameBuffer :=
  ⟨1920, 1080, fun _ _ => ⟨0, 0, 255⟩⟩

/-- The state right after the overlay script loads. -/
def freshState : ScState :=
  ⟨false, 0, 0, 0, 0, none, none, .hex, false⟩

/-- A state in the middle of a drag from (50, 60) to (120, 130). -/
def dragSt : ScState :=
  ⟨true, 50, 60, 120, 130, none, none, .hex, false⟩

/-- The state left behind when `Escape` cancels the session of `dragSt`
mid-drag. -/
def priorCancelledState : ScState :=
  (keydown dragSt "Escape" true true 0).1

/-- An idle state whose last pointer position is (100, 100) with the red
capture loaded. -/
def idleRedState : ScState :=
  ⟨false, 0, 0, 100, 100, some fbRed, none, .hex, false⟩

/-- A mid-drag state from (10, 10) to (50, 50) over the red capture. -/
def dragRedState : ScState :=
  ⟨true, 10, 10, 50, 50, some fbRed, none, .hex, false⟩

/-- A drag from (100, 100) to (300, 250), the spec's commit scenario. -/
def commitScenarioState : ScState :=
  ⟨true, 100, 100, 300, 250, none, none, .hex, false⟩

/-- A drag from (50, 50) to (55, 53), the spec's sub-threshold
scenario. -/
def tinyScenarioState : ScState :=
  ⟨true, 50, 50, 55, 53, none, none, .hex, false⟩

/-- A sampled color record for the copy fixtures. -/
def redInfo : ColorInfo :=
  ⟨255, 0, 0, "#FF0000", "rgb(255, 0, 0)"⟩

/-- An idle state holding a sampled color, ready for the copy key. -/
def colorReadyState : ScState :=
  ⟨false, 0, 0, 100, 100, some fbRed, some redInfo, .hex, false⟩

/-! ## Claims -/

/-- Claim C2: a primary-button release that finalizes a selection with
width < 10 or height < 10 never invokes the backend commit command and
invokes the backend cancel command exactly once. -/
theorem small_selection_cancels_once (st : ScState) (commitOk cancelOk : Bool)
    (hdraw : st.isDrawing = true)
    (hsmall : |st.currentX - st.startX| < 10 ∨ |st.currentY - st.startY| < 10) :
    ((mouseup st 0 commitOk cancelOk).2.countP isCommitEff = 0) ∧
    ((mouseup st 0 commitOk cancelOk).2.countP isCancelEff = 1) := by
  unfold mouseup cancel_screenshot
  rw [if_neg (by simp [hdraw]), if_pos hsmall]
  cases cancelOk <;> simp [isCommitEff, isCancelEff]

/-- Witness for C2 at the spec's scenario: a release of a drag from
(50, 50) to (55, 53). -/
theorem small_selection_cancels_once_w :
    ((mouseup tinyScenarioState 0 true true).2.countP isCommitEff = 0) ∧
    ((mouseup tinyScenarioState 0 true true).2.countP isCancelEff = 1) :=
  small_selection_cancels_once tinyScenarioState true true rfl (by decide)

/-- Claim C10: a `mouseup` whose button is not primary, or that arrives
with no drag in progress, leaves the state untouched and issues no
effect at all (no hide, no backend command). -/
theorem mouseup_ignores_nonprimary_or_idle (st : ScState) (button : Nat)
    (commitOk cancelOk : Bool) (h : button ≠ 0 ∨ st.isDrawing = false) :
    mouseup st button commitOk cancelOk = (st, []) := by
  unfold mouseup
  rw [if_pos h]

/-- Witness for C10: a right-button release during a drag and a
primary release while idle are both complete no-ops. -/
theorem mouseup_ignores_nonprimary_or_idle_w :
    mouseup dragSt 2 true true = (dragSt, []) ∧
    mouseup freshState 0 true true = (freshState, []) :=
  ⟨mouseup_ignores_nonprimary_or_idle dragSt 2 true true (Or.inl (by decide)),
   mouseup_ignores_nonprimary_or_idle freshState 0 true true (Or.inr rfl)⟩

/-- Claim C4: every committed rectangle is the normalization of the
anchor and current points: `x`/`y` are the coordinate-wise minima,
`width`/`height` the absolute differences, and both are nonnegative. -/
theorem commit_rect_normalized (st : ScState) (commitOk cancelOk : Bool)
    (x y w h : Int)
    (hmem : Eff.invokeCommit x y w h ∈ (mouseup st 0 commitOk cancelOk).2) :
    x = min st.startX st.currentX ∧ y = min st.startY st.currentY ∧
    w = |st.currentX - st.startX| ∧ h = |st.currentY - st.startY| ∧
    0 ≤ w ∧ 0 ≤ h := by
  unfold mouseup cancel_screenshot at hmem
  split at hmem
  · simp at hmem
  · split at hmem
    · cases cancelOk <;> simp at hmem
    · split at hmem <;> simp at hmem <;>
        obtain ⟨hx, hy, hw, hh⟩ := hmem <;>
        subst hx <;> subst hy <;> subst hw <;> subst hh <;>
        exact ⟨rfl, rfl, rfl, rfl, abs_nonneg _, abs_nonneg _⟩

/-- Witness for C4 at the spec's scenario: releasing a drag from
(100, 100) to (300, 250) commits the rectangle (100, 100, 200, 150). -/
theorem commit_rect_normalized_w :
    (100 : Int) = min 100 300 ∧ (100 : Int) = min 100 250 ∧
    (200 : Int) = |(300 : Int) - 100| ∧ (150 : Int) = |(250 : Int) - 100| ∧
    (0 : Int) ≤ 200 ∧ (0 : Int) ≤ 150 :=
  commit_rect_normalized commitScenarioState true true 100 100 200 150 (by decide)

/-- Claim C9: toggling the display format twice restores the displayed
color string, and a toggle (the `shift` key) changes only `colorFormat`
— the sampled `currentColor` is untouched (no re-sample; the only
effect is a redraw request). -/
theorem format_toggle_involution (f : ColorFormat) (c : ColorInfo) (st : ScState)
    (cancelOk writeOk : Bool) (now : Nat) :
    displayedColor (toggleFormat (toggleFormat f)) c = displayedColor f c ∧
    (keydown st "Shift" cancelOk writeOk now).1.currentColor = st.currentColor ∧
    (keydown st "Shift" cancelOk writeOk now).1.colorFormat = toggleFormat st.colorFormat ∧
    (keydown st "Shift" cancelOk writeOk now).2.1 = [Eff.requestDraw] := by
  have hk : keydown st "Shift" cancelOk writeOk now =
      ({st with colorFormat := toggleFormat st.colorFormat}, [Eff.requestDraw], []) := by
    unfold keydown
    rw [if_neg (by decide), if_pos (by decide)]
  rw [hk]
  refine ⟨?_, rfl, rfl, rfl⟩
  cases f <;> rfl

/-- Counterexample to Claim C1: a prior session cancelled with `Escape`
mid-drag leaves `isDrawing = true`, and a subsequent activation with a
valid `image_data_url` replaces the capture but does NOT reset the
pointer mode to Idle — the drag state from the prior session survives. -/
theorem activation_preserves_drag_cex :
    priorCancelledState.isDrawing = true ∧
    (onInitializeEvent priorCancelledState (some "data:image/png;base64,iVBORw0KGgo")
        true fbBlue).1.isDrawing = true ∧
    (onInitializeEvent priorCancelledState (some "data:image/png;base64,iVBORw0KGgo")
        true fbBlue).1.screenCapture = some fbBlue := by
  refine ⟨?_, ?_, ?_⟩ <;> rfl

/-- Claim C1 (amended): an activation whose payload carries a valid
`image_data_url` replaces the FrameBuffer wholesale and the first render
is requested only from the new image, but the PointerState mode is NOT
re-initialized: `isDrawing` keeps whatever value the prior session left
(Idle only when the prior session ended through a primary-button
release; still Dragging when it was cancelled via Escape or right-click
mid-drag). -/
theorem activation_replaces_buffer_not_pointer (st : ScState) (url : String)
    (img : FrameBuffer) (h : url ≠ "") :
    ((onInitializeEvent st (some url) true img).1.screenCapture = some img) ∧
    ((onInitializeEvent st (some url) true img).1.isDrawing = st.isDrawing) ∧
    ((onInitializeEvent st (some url) true img).2 = [Eff.drawNow]) := by
  unfold onInitializeEvent setupCanvas
  simp [h]

/-- Witness for the amended C1 at a concrete cancelled-mid-drag prior
state and a concrete data URL. -/
theorem activation_replaces_buffer_not_pointer_w :
    ((onInitializeEvent priorCancelledState (some "data:image/png;base64,AAAA")
        true fbBlue).1.screenCapture = some fbBlue) ∧
    ((onInitializeEvent priorCancelledState (some "data:image/png;base64,AAAA")
        true fbBlue).1.isDrawing = priorCancelledState.isDrawing) ∧
    ((onInitializeEvent priorCancelledState (some "data:image/png;base64,AAAA")
        true fbBlue).2 = [Eff.drawNow]) :=
  activation_replaces_buffer_not_pointer priorCancelledState
    "data:image/png;base64,AAAA" fbBlue (by decide)

/-- Counterexample to Claim C5: pressing `Escape` during the drag of
`dragSt` hides the window and invokes the backend cancel, but the state
machine does NOT transition to Idle — `isDrawing` is still true, so the
next rendered frame would still draw the drag selection. -/
theorem escape_leaves_dragging_cex :
    dragSt.isDrawing = true ∧
    (keydown dragSt "Escape" true true 0).1.isDrawing = true ∧
    (keydown dragSt "Escape" true true 0).2.1 = [Eff.hideWindow, Eff.invokeCancel] ∧
    rendersSelection (keydown dragSt "Escape" true true 0).1 = true := by
  refine ⟨rfl, ?_, ?_, ?_⟩ <;> rfl

/-- Claim C5 (amended): on `Escape` during a drag the hide is issued and
the backend cancel is invoked exactly once (after the hide), but the
pointer mode stays Dragging: `isDrawing` remains true and a subsequent
frame would still render the drag selection. -/
theorem escape_cancels_but_not_idle (st : ScState) (cancelOk writeOk : Bool)
    (now : Nat) (hdraw : st.isDrawing = true) :
    ((keydown st "Escape" cancelOk writeOk now).1.isDrawing = true) ∧
    ((keydown st "Escape" cancelOk writeOk now).2.1.countP isCancelEff = 1) ∧
    (hideBefore false (keydown st "Escape" cancelOk writeOk now).2.1 = true) ∧
    (rendersSelection (keydown st "Escape" cancelOk writeOk now).1 = true) := by
  have hk : keydown st "Escape" cancelOk writeOk now =
      ((cancel_screenshot st cancelOk).1, (cancel_screenshot st cancelOk).2, []) := by
    unfold keydown
    rw [if_pos (by decide)]
  rw [hk]
  unfold cancel_screenshot rendersSelection
  cases cancelOk <;>
    simp [hdraw, isCancelEff, hideBefore, backendCall]

/-- Witness for the amended C5 at the concrete mid-drag state. -/
theorem escape_cancels_but_not_idle_w :
    ((keydown dragSt "Escape" true true 0).1.isDrawing = true) ∧
    ((keydown dragSt "Escape" true true 0).2.1.countP isCancelEff = 1) ∧
    (hideBefore false (keydown dragSt "Escape" true true 0).2.1 = true) ∧
    (rendersSelection (keydown dragSt "Escape" true true 0).1 = true) :=
  escape_cancels_but_not_idle dragSt true true 0 rfl

/-- Claim C3: in every handler that reaches the backend — release,
keyboard, right-click — each backend command in the effect trace is
strictly preceded by a window hide, for every state, button, key and
backend outcome. -/
theorem hide_precedes_backend_calls (st : ScState) (button : Nat)
    (commitOk cancelOk writeOk : Bool) (key : String) (now : Nat) :
    hideBefore false (mouseup st button commitOk cancelOk).2 = true ∧
    hideBefore false (keydown st key cancelOk writeOk now).2.1 = true ∧
    hideBefore false (contextmenu st cancelOk).2 = true := by
  refine ⟨?_, ?_, ?_⟩
  · unfold mouseup cancel_screenshot
    split
    · rfl
    · split
      · cases cancelOk <;> rfl
      · split
        · rfl
        · cases cancelOk <;> rfl
  · unfold keydown cancel_screenshot copyColorToClipboard
    split
    · cases cancelOk <;> rfl
    · split
      · rfl
      · split
        · split
          · rfl
          · split <;> rfl
        · rfl
  · unfold contextmenu cancel_screenshot
    cases cancelOk <;> rfl

/-- Claim C6: a failing backend commit is demoted to the cancel path
(the cancel command is then invoked exactly once, still after a hide),
and a failing backend cancel is only logged — the state is untouched,
the command is not retried, and nothing undoes the hide that already
happened (the whole trace is hide, cancel, log). -/
theorem backend_failure_handling (st : ScState) (cancelOk : Bool)
    (hdraw : st.isDrawing = true)
    (hw : 10 ≤ |st.currentX - st.startX|)
    (hh : 10 ≤ |st.currentY - st.startY|) :
    ((mouseup st 0 false cancelOk).2.countP isCancelEff = 1) ∧
    (hideBefore false (mouseup st 0 false cancelOk).2 = true) ∧
    (cancel_screenshot st false =
      (st, [Eff.hideWindow, Eff.invokeCancel, Eff.logError])) ∧
    ((cancel_screenshot st false).2.countP isCancelEff = 1) := by
  unfold mouseup cancel_screenshot
  rw [if_neg (by simp [hdraw]), if_neg (by omega), if_neg (by simp)]
  cases cancelOk <;>
    simp [isCancelEff, hideBefore, backendCall]

/-- Witness for C6: the commit-scenario drag with a failing commit and a
failing cancel. -/
theorem backend_failure_handling_w :
    ((mouseup commitScenarioState 0 false false).2.countP isCancelEff = 1) ∧
    (hideBefore false (mouseup commitScenarioState 0 false false).2 = true) ∧
    (cancel_screenshot commitScenarioState false =
      (commitScenarioState, [Eff.hideWindow, Eff.invokeCancel, Eff.logError])) ∧
    ((cancel_screenshot commitScenarioState false).2.countP isCancelEff = 1) :=
  backend_failure_handling commitScenarioState false rfl (by decide) (by decide)

/-- Counterexample to Claim C7: with successful copies at 0 ms and
200 ms, the last-started reset timer fires at 500 ms, yet the feedback
is already false at 350 ms (and at 499 ms), because the first copy's
uncancelled timer fired at 300 ms. -/
theorem overlapping_copy_feedback_cex :
    feedbackAt [0, 200] 250 = true ∧
    feedbackAt [0, 200] 350 = false ∧
    feedbackAt [0, 200] 499 = false := by
  decide

/-- Claim C7 (amended): `copyFeedback` is set true exactly on a
successful clipboard write (a failed write or a missing sample changes
nothing and schedules nothing), each success schedules one uncancelled
reset 300 ms later, and with a single copy the feedback is true exactly
during the 300 ms window; when a second successful copy occurs before
the first reset fires, the feedback stays true only until the FIRST
copy's timer fires — not until the last-started timer elapses. -/
theorem copy_feedback_resets_at_first_timer
    (st : ScState) (c : ColorInfo) (now t T t1 t2 : Nat)
    (hc : st.currentColor = some c)
    (h1 : t1 < t2) (h2 : t2 < t1 + 300) :
    ((copyColorToClipboard st true now).1.copyFeedback = true) ∧
    ((copyColorToClipboard st true now).2.2 = [now + 300]) ∧
    ((copyColorToClipboard st false now).1 = st) ∧
    ((copyColorToClipboard st false now).2.2 = []) ∧
    (feedbackAt [t] T = true ↔ (t ≤ T ∧ T < t + 300)) ∧
    (feedbackAt [t1, t2] T = true ↔ (t1 ≤ T ∧ T < t1 + 300)) := by
  refine ⟨?_, ?_, ?_, ?_, ?_, ?_⟩
  · unfold copyColorToClipboard; rw [hc]; rfl
  · unfold copyColorToClipboard; rw [hc]; rfl
  · unfold copyColorToClipboard; rw [hc]; rfl
  · unfold copyColorToClipboard; rw [hc]; rfl
  · unfold feedbackAt copyEvents
    simp only [List.map_cons, List.map_nil, List.cons_append, List.nil_append,
      List.foldl_cons, List.foldl_nil]
    by_cases hA : t ≤ T <;> by_cases hB : t + 300 ≤ T <;>
      simp [hA, hB] <;> omega
  · have e1 : t1 ≤ t2 := Nat.le_of_lt h1
    have e2 : t2 ≤ t1 + 300 := Nat.le_of_lt h2
    have e3 : t1 + 300 ≤ t2 + 300 := by omega
    have e6 : t1 ≤ t2 + 300 := by omega
    unfold feedbackAt copyEvents
    simp only [List.map_cons, List.map_nil, List.cons_append, List.nil_append,
      List.foldl_cons, List.foldl_nil]
    by_cases hA : t1 ≤ T <;> by_cases hB : t2 ≤ T <;>
      by_cases hC : t1 + 300 ≤ T <;> by_cases hD : t2 + 300 ≤ T <;>
      simp [hA, hB, hC, hD, e1, e2, e3, e6] <;> omega

/-- Witness for the amended C7 at copies 0 ms and 200 ms, queried at
250 ms, with the color-ready fixture state. -/
theorem copy_feedback_resets_at_first_timer_w :
    ((copyColorToClipboard colorReadyState true 0).1.copyFeedback = true) ∧
    ((copyColorToClipboard colorReadyState true 0).2.2 = [0 + 300]) ∧
    ((copyColorToClipboard colorReadyState false 0).1 = colorReadyState) ∧
    ((copyColorToClipboard colorReadyState false 0).2.2 = []) ∧
    (feedbackAt [100] 250 = true ↔ (100 ≤ 250 ∧ 250 < 100 + 300)) ∧
    (feedbackAt [0, 200] 250 = true ↔ (0 ≤ 250 ∧ 250 < 0 + 300)) :=
  copy_feedback_resets_at_first_timer colorReadyState redInfo 0 100 250 0 200
    rfl (by decide) (by decide)

/-- Counterexample to Claim C8: with the pure-red capture loaded and the
overlay idle, the pixel under the pointer is read from the composited
canvas — the frame-buffer pixel darkened by the 50 % mask — so although
the frame buffer holds (255, 0, 0) at (100, 100), the resulting
ColorSample is (127, 0, 0) with hex "#7F0000", not (255, 0, 0) with
"#FF0000". -/
theorem red_pixel_masked_sample_cex :
    fbRed.pix 100 100 = ⟨255, 0, 0⟩ ∧
    (mousemove idleRedState (drawnPixel 1920 1080 idleRedState fbRed) 100 100).1.currentColor =
      some ⟨127, 0, 0, "#7F0000", "rgb(127, 0, 0)"⟩ ∧
    (mousemove idleRedState (drawnPixel 1920 1080 idleRedState fbRed) 100 100).1.currentColor ≠
      some ⟨255, 0, 0, "#FF0000", "rgb(255, 0, 0)"⟩ := by
  refine ⟨rfl, by decide, by decide⟩

/-- Claim C8 (amended): on every pointer move with a capture loaded, the
ColorSample is the single pixel of the rendered canvas at the current
point, formatted with zero-padded, upper-cased, `#`-prefixed hex; the
canvas pixel equals the raw frame-buffer pixel only where the canvas
shows unmasked capture content — in particular strictly inside an
active selection punch-through (away from its 2-pixel border band and
outside the magnifier box), where a pure-red pixel therefore samples as
(255, 0, 0)/"#FF0000". -/
theorem sample_is_canvas_pixel
    (st : ScState) (canvas : Int → Int → Color) (fb : FrameBuffer)
    (cw ch : Nat) (x y : Int)
    (hcap : st.screenCapture = some fb)
    (hdraw : st.isDrawing = true)
    (hx1 : min st.startX st.currentX + 2 ≤ x)
    (hx2 : x + 2 ≤ min st.startX st.currentX + |st.currentX - st.startX|)
    (hy1 : min st.startY st.currentY + 2 ≤ y)
    (hy2 : y + 2 ≤ min st.startY st.currentY + |st.currentY - st.startY|)
    (hmag : ¬ inMagnifierBox cw x y) :
    ((mousemove st canvas x y).1.currentColor = some (sampleInfo (canvas x y))) ∧
    (drawnPixel cw ch st fb x y = fb.pix x y) := by
  constructor
  · unfold mousemove
    rw [hcap]
  · unfold drawnPixel
    rw [if_pos hdraw]
    generalize hmx : min st.startX st.currentX = mx at hx1 hx2 ⊢
    generalize hwx : |st.currentX - st.startX| = wx at hx2 ⊢
    generalize hmy : min st.startY st.currentY = my at hy1 hy2 ⊢
    generalize hwy : |st.currentY - st.startY| = wy at hy2 ⊢
    have hcond : 0 < wx ∧ 0 < wy ∧ mx ≤ x ∧ x < mx + wx ∧ my ≤ y ∧ y < my + wy :=
      ⟨by omega, by omega, by omega, by omega, by omega, by omega⟩
    rw [if_pos hcond]

/-- Witness for the amended C8: a drag from (10, 10) to (50, 50) over
the red capture, sampled at the interior point (20, 20). -/
theorem sample_is_canvas_pixel_w :
    ((mousemove dragRedState (drawnPixel 1920 1080 dragRedState fbRed) 20 20).1.currentColor =
      some (sampleInfo (drawnPixel 1920 1080 dragRedState fbRed 20 20))) ∧
    (drawnPixel 1920 1080 dragRedState fbRed 20 20 = fbRed.pix 20 20) :=
  sample_is_canvas_pixel dragRedState (drawnPixel 1920 1080 dragRedState fbRed)
    fbRed 1920 1080 20 20 rfl rfl (by decide) (by decide) (by decide) (by decide)
    (by unfold inMagnifierBox; decide)

end ScreenTranslator
